import Mathlib

/-
  Verification development for the `zod-http` request executor (`src/core.ts`).

  The TypeScript source is shallowly embedded below.  Platform primitives that
  the repository merely consumes (JSON.parse, JSON.stringify, fetch, timers,
  XMLHttpRequest, TextDecoder) are modelled as explicit parameters or as an
  environment value describing what the transport does on each attempt; the
  repository's own control flow (`serializeBody`, the `zFetch` attempt loop,
  `zFetch.stream`, `zFetch.upload`) is translated line by line.
-/

set_option autoImplicit false

namespace ZodHttp

/-- Universe of parsed JSON values (the values produced by `JSON.parse` and
consumed by the schema engine).  JSON numbers are modelled as integers; no
claim depends on float arithmetic. -/
inductive Json where
  | null : Json
  | bool : Bool → Json
  | num : Int → Json
  | str : String → Json
  | arr : List Json → Json
  | obj : List (String × Json) → Json

/-- `ZodFetchErrorCause` from `src/error.ts`. -/
inductive Cause where
  | network | timeout | validation | abort | unknown
deriving DecidableEq

/-- Payload of the `data` field of a `ZodFetchError`: either a parsed JSON
value (possibly the raw body text as a string) or a captured JS error object,
recorded by its name, message and whether it is a `TypeError`. -/
inductive ErrData where
  | json : Json → ErrData
  | errObj : (name message : String) → (isTypeError : Bool) → ErrData

/-- `ZodFetchError` from `src/error.ts`.  Validation issues are opaque to the
core (they come from zod), so they are modelled as strings.  The `response`
handle carried by the source error is not modelled: no claim inspects it and
it would make the error type mutually recursive with the transport model. -/
structure ZFError where
  message : String
  status : Option Nat := none
  statusText : Option String := none
  url : Option String := none
  issues : Option (List String) := none
  data : Option ErrData := none
  cause : Cause

/-- A JavaScript error value as observed by the `catch` block of the attempt
loop: its `name`, `message`, whether it is an `instanceof TypeError`, and
(if it is an `instanceof ZodFetchError`) the carried classified error.
Every value thrown inside the source `try` block is an `Error` instance
(fetch/body-read rejections and the executor's own `ZodFetchError` throws),
so `error instanceof Error` is `true` throughout the model. -/
structure JsError where
  name : String
  message : String
  isTypeError : Bool
  zod : Option ZFError

/-- The `JsError` corresponding to throwing a freshly constructed
`ZodFetchError` (its `name` field is set to "ZodFetchError" by the class). -/
def JsError.ofZod (z : ZFError) : JsError :=
  { name := "ZodFetchError", message := z.message, isTypeError := false, zod := some z }

/-- Result of `schema.safeParseAsync`: `{success: true, data}` (the value may
be transformed by the schema) or `{success: false, error.issues}`. -/
inductive ValidResult where
  | success : Json → ValidResult
  | failure : List String → ValidResult

def ValidResult.toOption : ValidResult → Option Json
  | .success v => some v
  | .failure _ => none

/-- The schema engine, consumed as an opaque capability. -/
abbrev Schema := Json → ValidResult

/-- `JSON.parse`, modelled as a platform primitive: `none` means the parse
throws. -/
abbrev JsonParse := String → Option Json

/-- Does `pat` occur as a contiguous run inside `l`? -/
def charsInclude (pat : List Char) : List Char → Bool
  | [] => pat.isEmpty
  | c :: rest => pat.isPrefixOf (c :: rest) || charsInclude pat rest

/-- `s.includes(pat)` on JavaScript strings. -/
def strIncludes (s pat : String) : Bool :=
  charsInclude pat.data s.data

/-! ### Headers (the `Headers` class, as used by the source: `has`/`set`,
case-insensitive on header names) -/

abbrev HeadersL := List (String × String)

def hasHeader (hs : HeadersL) (name : String) : Bool :=
  hs.any (fun kv => kv.1.toLower == name.toLower)

def setHeader (hs : HeadersL) (name value : String) : HeadersL :=
  if hasHeader hs name then
    hs.map (fun kv => if kv.1.toLower == name.toLower then (kv.1, value) else kv)
  else
    hs ++ [(name, value)]

/-! ### Body model and `serializeBody` (src/core.ts lines 25-42) -/

/-- A value acceptable as the `body` option: the special already-encoded
classes checked by `serializeBody`, a string (`typeof body === "string"`, not
an object), or a plain structured value (`typeof body === "object"` and none
of the special classes). -/
inductive BodyInitLike where
  | blob | formData | urlSearchParams | readableStream
  | str : String → BodyInitLike
  | jsonVal : Json → BodyInitLike

/-- `body?: BodyInit | object | null` — distinguishing absent (`undefined`)
from `null` as the source does. -/
inductive BodyOpt where
  | undefined | null
  | val : BodyInitLike → BodyOpt

/-- `serializeBody(body, headers)` from src/core.ts.  `stringify` models the
`JSON.stringify` platform primitive.  Returns the request body together with
the (possibly mutated) headers. -/
def serializeBody (stringify : Json → String) (body : BodyOpt) (hs : HeadersL) :
    Option BodyInitLike × HeadersL :=
  match body with
  | .undefined => (none, hs)
  | .null => (none, hs)
  | .val b =>
    match b with
    | .jsonVal j =>
      -- typeof body === "object" and not Blob/FormData/URLSearchParams/ReadableStream
      if hasHeader hs "Content-Type" then
        (some (.str (stringify j)), hs)
      else
        (some (.str (stringify j)), setHeader hs "Content-Type" "application/json")
    | other => (some other, hs)

/-! ### URL assembly (src/core.ts lines 59-67) -/

/-- One `requestUrl.searchParams.append(key, String(value))` step, modelled at
the URL-string level (percent-encoding and URL normalisation are omitted: no
claim depends on the exact rendering, only on whether the query is appended
at all). -/
def addQueryParam (u k v : String) : String :=
  u ++ (if strIncludes u "?" then "&" else "?") ++ k ++ "=" ++ v

/-- URL assembly: `new URL(url.toString())` followed by appending every
defined entry of `searchParams` in iteration order; entries whose value is
`undefined` are skipped. -/
def appendSearchParams (u : String) : Option (List (String × Option String)) → String
  | none => u
  | some ps => ps.foldl (fun acc kv =>
      match kv.2 with
      | none => acc
      | some v => addQueryParam acc kv.1 v) u

/-! ### Retry policy (src/core.ts lines 4-8 and 69-73) -/

inductive Backoff where
  | linear | exponential
deriving DecidableEq

/-- `ZodFetchRetryOptions`. -/
structure RetryOpts where
  attempts : Nat
  delay : Option Nat := none
  backoff : Option Backoff := none

/-- The `retry` option: a bare number or an options object. -/
inductive RetryArg where
  | num : Nat → RetryArg
  | opts : RetryOpts → RetryArg

/-- Lines 70-73: a bare number N becomes `{attempts: N, delay: 1000,
backoff: "linear"}`; `retry || {attempts: 0, delay: 0, backoff: "linear"}`
(an options object is always truthy). -/
def normalizeRetry : Option RetryArg → RetryOpts
  | some (.num n) => { attempts := n, delay := some 1000, backoff := some .linear }
  | some (.opts o) => o
  | none => { attempts := 0, delay := some 0, backoff := some .linear }

/-- Line 174: `retryConfig.delay || 1000` — JS falsiness, so a configured
delay of `0` (and an absent delay) both yield 1000. -/
def delayUsed (c : RetryOpts) : Nat :=
  match c.delay with
  | some d => if d = 0 then 1000 else d
  | none => 1000

/-- Line 175: `retryConfig.backoff === "exponential" ? Math.pow(2, attempt - 1) : 1`. -/
def backoffMult (c : RetryOpts) (attempt : Nat) : Nat :=
  if c.backoff = some .exponential then 2 ^ (attempt - 1) else 1

/-! ### Options and transport environment -/

/-- `ZodFetchOptions` (the fields the executor reads).  `hasSignal` records
whether the caller supplied an external `AbortSignal` (`init.signal`). -/
structure ZOptions where
  url : String
  searchParams : Option (List (String × Option String)) := none
  body : BodyOpt := .undefined
  timeout : Option Nat := none
  retry : Option RetryArg := none
  hasSignal : Bool := false
  headers : HeadersL := []

/-- A resolved `fetch` response, as far as the executor reads it.  `textResult`
is the outcome of reading the body as text (`response.text()` /
`response.json()`'s underlying read); `.error e` means the read rejects with
the JS error `e`. -/
structure FetchOk where
  status : Nat
  statusText : String
  contentType : Option String
  textResult : Except JsError String

/-- What the transport does on one attempt: the `fetch` promise resolves with
a response or rejects with a JS error (an `AbortError` when the attempt's
abort controller fired, a `TypeError` "Failed to fetch" on connectivity
failure, ...). -/
inductive FetchOutcome where
  | ok : FetchOk → FetchOutcome
  | thrown : JsError → FetchOutcome

/-- Environment of one loop iteration: the transport outcome together with
the value of `init.signal.aborted` at the time the `catch` block runs.
The source wires the external signal to the attempt's internal controller
with `addEventListener` (src/core.ts lines 82-84); a listener does not fire
for a signal that was already aborted before the attempt started, so an
externally pre-aborted signal coexists with a normally resolving `fetch` —
the environment therefore constrains the two fields independently. -/
structure AttemptEnv where
  outcome : FetchOutcome
  externalAborted : Bool

/-- `response.ok`: status in the range 200-299. -/
def respOk (status : Nat) : Bool :=
  200 ≤ status && status ≤ 299

/-- Line 124: `contentType && contentType.includes("application/json")`
(a `null` header — and hence also the falsy empty string — fails the guard;
for the empty string the `includes` test would fail anyway). -/
def contentTypeIsJson : Option String → Bool
  | none => false
  | some ct => strIncludes ct "application/json"

/-- `try { data = JSON.parse(text) } catch { data = text }` — the pattern used
on the success path, the error path and in the stream/upload variants. -/
def parseOrRaw (p : JsonParse) (text : String) : Json :=
  match p text with
  | some j => j
  | none => .str text

/-- Lines 122-133, success path: if the declared content type includes
`application/json`, `data = await response.json()` (whose parse failure
rejects with a `SyntaxError`); otherwise read text and opportunistically
JSON-parse it, falling back to the raw string. -/
def parseSuccessBody (p : JsonParse) (r : FetchOk) : Except JsError Json :=
  if contentTypeIsJson r.contentType then
    match r.textResult with
    | .error e => .error e
    | .ok text =>
      match p text with
      | some j => .ok j
      | none => .error { name := "SyntaxError", message := "Unexpected token", isTypeError := false, zod := none }
  else
    match r.textResult with
    | .error e => .error e
    | .ok text => .ok (parseOrRaw p text)

/-- Lines 97-108, error path: try to read and JSON-parse the error body,
falling back to the raw text; a body-read failure is swallowed and the
error is raised without `data`. -/
def errorBodyData (p : JsonParse) (r : FetchOk) : Option ErrData :=
  match r.textResult with
  | .error _ => none
  | .ok text => some (.json (parseOrRaw p text))

/-- The body of the `try` block for one attempt (lines 86-149): returns the
validated value or the JS error that the `catch` block receives, together
with the list of values passed to `schema.safeParseAsync` (used to state
that HTTP failures never reach the schema layer). -/
def tryBody (p : JsonParse) (schema : Schema) (urlStr : String) (o : FetchOutcome) :
    Except JsError Json × List Json :=
  match o with
  | .thrown e => (.error e, [])
  | .ok r =>
    if respOk r.status then
      match parseSuccessBody p r with
      | .error e => (.error e, [])
      | .ok data =>
        match schema data with
        | .failure issues =>
          (.error (JsError.ofZod
            { message := "Validation error", url := some urlStr,
              issues := some issues, data := some (.json data),
              cause := .validation }), [data])
        | .success v => (.ok v, [data])
    else
      (.error (JsError.ofZod
        { message := "Request failed with status " ++ toString r.status,
          status := some r.status, statusText := some r.statusText,
          url := some urlStr, data := errorBodyData p r,
          cause := .network }), [])

/-- Lines 167-171, the parenthesised part of `shouldRetry`: a timeout-style
cancellation (`AbortError` not caused by the external signal), a
connectivity failure (`TypeError` with message exactly "Failed to fetch"),
or a `ZodFetchError` whose truthy `status` is at least 500. -/
def retryEligible (extAborted : Bool) (e : JsError) : Bool :=
  (e.name == "AbortError" && !extAborted) ||
  (e.isTypeError && e.message == "Failed to fetch") ||
  (match e.zod with
   | some z =>
     match z.status with
     | some s => decide (500 ≤ s)
     | none => false
   | none => false)

/-- Lines 180-198: the final classification once no retry happens: a
`ZodFetchError` is rethrown verbatim; a timeout-style cancellation becomes
kind `timeout`; anything else becomes kind `network` with the original
error captured as `data` (every modelled thrown value is an `Error`, so
`error.message` is used for the message). -/
def classifyNoRetry (urlStr : String) (extAborted : Bool) (e : JsError) : ZFError :=
  match e.zod with
  | some z => z
  | none =>
    if e.name == "AbortError" && !extAborted then
      { message := "Request timed out", url := some urlStr, cause := .timeout }
    else
      { message := e.message, url := some urlStr, cause := .network,
        data := some (.errObj e.name e.message e.isTypeError) }

/-- Lines 158-164: the error raised when the external signal is aborted. -/
def abortError (urlStr : String) : ZFError :=
  { message := "Request aborted", url := some urlStr, cause := .abort }

/-- One network call as issued: the URL given to `fetch`, whether the call
was bound to a fresh internal `AbortController`, the duration of the abort
timer armed for the call (if any), and the headers/body passed along. -/
structure FetchCall where
  url : String
  internalController : Bool
  timerMs : Option Nat
  headers : HeadersL
  body : Option BodyInitLike

/-- Observable outcome of a whole `zFetch` run: the resolved value or the
raised `ZodFetchError`, the network calls issued in order, the durations
waited between attempts in order, and the values handed to the schema. -/
structure ZRun where
  result : Except ZFError Json
  trace : List FetchCall
  waits : List Nat
  validated : List Json

/-- The final iteration of the attempt loop: the source's retry guard
`attempt <= retryConfig.attempts` is false, so `shouldRetry` is false and the
failure is classified and raised (lines 86-164 and 180-198). -/
def finalAttempt (p : JsonParse) (schema : Schema) (call : FetchCall) (urlStr : String)
    (hasSignal : Bool) (a : AttemptEnv) : ZRun :=
  match tryBody p schema urlStr a.outcome with
  | (.ok v, vs) => ⟨.ok v, [call], [], vs⟩
  | (.error e, vs) =>
    if hasSignal && a.externalAborted then
      ⟨.error (abortError urlStr), [call], [], vs⟩
    else
      ⟨.error (classifyNoRetry urlStr (hasSignal && a.externalAborted) e), [call], [], vs⟩

/-- The attempt loop (lines 75-200).  `attempt` is the 1-based attempt
counter; `rest` is the remaining retry budget `attempts + 1 - attempt`, so
the source's retry guard `attempt <= retryConfig.attempts` holds exactly when
`rest > 0` (the loop is entered with `attempt = 1`, `rest = attempts`, and
`rest = 0` is the final iteration).  The run of the recursive call is
extended with this attempt's network call and the `wait(delay * backoff)`
suspension of lines 174-176. -/
def zFetchLoop (p : JsonParse) (schema : Schema) (call : FetchCall) (urlStr : String)
    (hasSignal : Bool) (cfg : RetryOpts) (env : Nat → AttemptEnv) :
    (rest : Nat) → (attempt : Nat) → ZRun
  | 0, attempt => finalAttempt p schema call urlStr hasSignal (env attempt)
  | r + 1, attempt =>
    match tryBody p schema urlStr (env attempt).outcome with
    | (.ok v, vs) => ⟨.ok v, [call], [], vs⟩
    | (.error e, vs) =>
      if hasSignal && (env attempt).externalAborted then
        ⟨.error (abortError urlStr), [call], [], vs⟩
      else
        if retryEligible (hasSignal && (env attempt).externalAborted) e then
          let next := zFetchLoop p schema call urlStr hasSignal cfg env r (attempt + 1)
          ⟨next.result, call :: next.trace,
           delayUsed cfg * backoffMult cfg attempt :: next.waits, vs ++ next.validated⟩
        else
          ⟨.error (classifyNoRetry urlStr (hasSignal && (env attempt).externalAborted) e),
           [call], [], vs⟩

/-- `zFetch` (lines 44-201): header construction, body serialization, URL
assembly, retry normalization, then the attempt loop starting at attempt 1.
`stringify` and `p` model `JSON.stringify` / `JSON.parse`; `env` models the
transport. -/
def zFetch (stringify : Json → String) (p : JsonParse) (schema : Schema)
    (opts : ZOptions) (env : Nat → AttemptEnv) : ZRun :=
  let sb := serializeBody stringify opts.body opts.headers
  let requestUrl := appendSearchParams opts.url opts.searchParams
  let cfg := normalizeRetry opts.retry
  let timeoutMs := opts.timeout.getD 10000
  let call : FetchCall :=
    { url := requestUrl, internalController := true, timerMs := some timeoutMs,
      headers := sb.2, body := sb.1 }
  zFetchLoop p schema call requestUrl opts.hasSignal cfg env cfg.attempts 1

/-! ### `zFetch.stream` (src/core.ts lines 210-247) -/

/-- An error value escaping `zFetch.stream` to the caller: a
`ZodFetchError`, or a plain JS `Error` that crosses the boundary unwrapped,
recorded by name and message. -/
inductive RaisedError where
  | zerr : ZFError → RaisedError
  | plain : (name message : String) → RaisedError

/-- How a JS error propagating out of `stream` appears to the caller. -/
def raisedOf (e : JsError) : RaisedError :=
  match e.zod with
  | some z => .zerr z
  | none => .plain e.name e.message

/-- `true` exactly when a stream run failed with an error that is not a
`ZodFetchError`. -/
def raisedUnclassified : Except RaisedError (List Json) → Bool
  | .error (.plain _ _) => true
  | _ => false

/-- The response as `stream` consumes it: HTTP status (never inspected by
the source), whether `response.body` is non-null, and the decoded text
fragments delivered by the reader (`decoder.decode(value, {stream: true})`)
in order. -/
structure StreamResp where
  status : Nat
  hasBody : Bool
  chunks : List String

/-- What the single `fetch` of `stream` does. -/
inductive StreamOutcome where
  | ok : StreamResp → StreamOutcome
  | thrown : JsError → StreamOutcome

/-- Observable outcome of a `zFetch.stream` run: on success, the values the
per-chunk callback was invoked with, in order. -/
structure StreamRun where
  result : Except RaisedError (List Json)
  trace : List FetchCall
  validated : List Json

/-- Lines 227-246, the read loop: each fragment is JSON-parsed with fallback
to the raw string, validated, and emitted to `onChunk` only on success;
returns the emitted values and the values handed to the schema. -/
def streamChunks (p : JsonParse) (schema : Schema) : List String → List Json × List Json
  | [] => ([], [])
  | c :: rest =>
    let data := parseOrRaw p c
    let next := streamChunks p schema rest
    match schema data with
    | .success v => (v :: next.1, data :: next.2)
    | .failure _ => (next.1, data :: next.2)

/-- `zFetch.stream`: serializes the body, performs exactly one `fetch`
against `url.toString()` verbatim (no `searchParams` handling, no internal
controller, no timer), throws a plain `Error("Response body is null")` when
the response has no body, and otherwise runs the per-fragment loop. -/
def zFetchStream (stringify : Json → String) (p : JsonParse) (schema : Schema)
    (opts : ZOptions) (o : StreamOutcome) : StreamRun :=
  let sb := serializeBody stringify opts.body opts.headers
  let call : FetchCall :=
    { url := opts.url, internalController := false, timerMs := none,
      headers := sb.2, body := sb.1 }
  match o with
  | .thrown e => ⟨.error (raisedOf e), [call], []⟩
  | .ok r =>
    if r.hasBody then
      let steps := streamChunks p schema r.chunks
      ⟨.ok steps.1, [call], steps.2⟩
    else
      ⟨.error (.plain "Error" "Response body is null"), [call], []⟩

/-! ### `zFetch.upload` (src/core.ts lines 257-321) -/

/-- What the XHR transport does: `onload` fires with a status/statusText and
response text, or `onerror` fires. -/
inductive UploadOutcome where
  | load : (status : Nat) → (statusText : String) → (responseText : String) → UploadOutcome
  | netError : UploadOutcome

/-- `zFetch.upload`'s settled promise: lines 277-315.  On load with status in
[200, 300): JSON-parse the response text with fallback to the raw string,
validate, and resolve or reject with a `validation` error; other statuses
reject with a `network` error; a transport error rejects with a generic
`network` error. -/
def zFetchUpload (p : JsonParse) (schema : Schema) (urlStr : String)
    (o : UploadOutcome) : Except ZFError Json :=
  match o with
  | .netError =>
    .error { message := "Network error during upload", url := some urlStr, cause := .network }
  | .load status statusText text =>
    if 200 ≤ status && status < 300 then
      let data := parseOrRaw p text
      match schema data with
      | .success v => .ok v
      | .failure issues =>
        .error { message := "Validation error", url := some urlStr,
                 issues := some issues, data := some (.json data),
                 cause := .validation }
    else
      .error { message := "Upload failed with status " ++ toString status,
               status := some status, statusText := some statusText,
               url := some urlStr, cause := .network }

/-! ### Concrete fixtures for witnesses and counterexamples -/

/-- Decimal digits to a number, `none` on the empty list or a non-digit. -/
def digitsToNat (acc : Nat) : List Char → Option Nat
  | [] => some acc
  | c :: rest =>
    if c.isDigit then digitsToNat (acc * 10 + (c.toNat - 48)) rest else none

/-- A small concrete stand-in for `JSON.parse`: parses decimal numerals and
nothing else. -/
def pNum : JsonParse := fun s =>
  match s.data with
  | [] => none
  | l => (digitsToNat 0 l).map (fun n => Json.num n)

/-- A schema accepting exactly numbers (identity on success). -/
def numSchema : Schema := fun j =>
  match j with
  | .num n => .success (.num n)
  | _ => .failure ["Expected number"]

/-- A schema accepting exactly strings (identity on success). -/
def strSchema : Schema := fun j =>
  match j with
  | .str s => .success (.str s)
  | _ => .failure ["Expected string"]

/-- A trivial `JSON.stringify` stand-in used where only its presence matters. -/
def stub : Json → String := fun _ => ""

/-- A 200 response carrying the given raw text body and no content type. -/
def okText (text : String) : FetchOk :=
  { status := 200, statusText := "OK", contentType := none, textResult := .ok text }

/-- A 500 response with an empty text body. -/
def err500 : FetchOk :=
  { status := 500, statusText := "Internal Server Error", contentType := none,
    textResult := .ok "" }

/-! ### Shared lemmas -/

theorem streamChunks_fst (p : JsonParse) (schema : Schema) (cs : List String) :
    (streamChunks p schema cs).1 =
      cs.filterMap (fun c => (schema (parseOrRaw p c)).toOption) := by
  induction cs with
  | nil => rfl
  | cons c rest ih =>
    simp only [streamChunks, List.filterMap_cons]
    cases h : schema (parseOrRaw p c) <;> simp [ValidResult.toOption, h, ih]

theorem streamChunks_snd (p : JsonParse) (schema : Schema) (cs : List String) :
    (streamChunks p schema cs).2 = cs.map (parseOrRaw p) := by
  induction cs with
  | nil => rfl
  | cons c rest ih =>
    simp only [streamChunks, List.map_cons]
    cases h : schema (parseOrRaw p c) <;> simp [h, ih]

/-- Every call the attempt loop issues is the one fixed request. -/
theorem loop_trace_const (p : JsonParse) (schema : Schema) (call : FetchCall)
    (urlStr : String) (hasSignal : Bool) (cfg : RetryOpts) (env : Nat → AttemptEnv) :
    ∀ rest attempt c,
      c ∈ (zFetchLoop p schema call urlStr hasSignal cfg env rest attempt).trace →
      c = call := by
  intro rest
  induction rest with
  | zero =>
    intro attempt c hc
    unfold zFetchLoop finalAttempt at hc
    rcases htry : tryBody p schema urlStr (env attempt).outcome with ⟨res, vs⟩
    rw [htry] at hc
    cases res with
    | ok v => simp_all
    | error e =>
      cases hab : (hasSignal && (env attempt).externalAborted) <;> simp_all
  | succ r ih =>
    intro attempt c hc
    unfold zFetchLoop at hc
    rcases htry : tryBody p schema urlStr (env attempt).outcome with ⟨res, vs⟩
    rw [htry] at hc
    cases res with
    | ok v => simp_all
    | error e =>
      cases hab : (hasSignal && (env attempt).externalAborted) with
      | true => simp_all
      | false =>
        simp only [hab, Bool.false_eq_true, if_false] at hc
        cases helig : retryEligible false e with
        | false => simp_all
        | true =>
          simp only [helig, if_true, List.mem_cons] at hc
          rcases hc with hc | hc
          · exact hc
          · exact ih (attempt + 1) c hc

/-- If `d` bounds every element below, `length * d` bounds the sum. -/
theorem length_mul_le_sum (d : Nat) :
    ∀ l : List Nat, (∀ x ∈ l, d ≤ x) → l.length * d ≤ l.sum := by
  intro l
  induction l with
  | nil => simp
  | cons x xs ih =>
    intro h
    have hx := h x (by simp)
    have hxs := ih (fun y hy => h y (by simp [hy]))
    simp only [List.length_cons, List.sum_cons, Nat.succ_mul]
    omega

/-- An attempt in which the external signal is not aborted and whose failure
the source classifies as retry-eligible. -/
def RetryingAttempt (p : JsonParse) (schema : Schema) (urlStr : String)
    (hasSignal : Bool) (a : AttemptEnv) : Prop :=
  (hasSignal && a.externalAborted) = false ∧
  ∃ e vs, tryBody p schema urlStr a.outcome = (.error e, vs) ∧ retryEligible false e = true

/-- Shape of a run in which every reachable attempt fails retry-eligibly:
the budget is fully consumed (`rest + 1` sequential calls), the wait after
attempt `k` is exactly `delayUsed cfg * backoffMult cfg k`, and the run ends
in an error. -/
theorem loop_retrying (p : JsonParse) (schema : Schema) (call : FetchCall)
    (urlStr : String) (hasSignal : Bool) (cfg : RetryOpts) (env : Nat → AttemptEnv) :
    ∀ rest attempt,
      (∀ k, attempt ≤ k → k ≤ attempt + rest →
        RetryingAttempt p schema urlStr hasSignal (env k)) →
      (zFetchLoop p schema call urlStr hasSignal cfg env rest attempt).trace.length = rest + 1 ∧
      (zFetchLoop p schema call urlStr hasSignal cfg env rest attempt).waits =
        (List.range rest).map (fun i => delayUsed cfg * backoffMult cfg (attempt + i)) ∧
      ∃ e, (zFetchLoop p schema call urlStr hasSignal cfg env rest attempt).result = .error e := by
  intro rest
  induction rest with
  | zero =>
    intro attempt h
    obtain ⟨hab, e, vs, htry, _⟩ := h attempt le_rfl (Nat.le_add_right _ _)
    unfold zFetchLoop finalAttempt
    rw [htry]
    simp [hab]
  | succ r ih =>
    intro attempt h
    obtain ⟨hab, e, vs, htry, helig⟩ := h attempt le_rfl (by omega)
    have hnext := ih (attempt + 1) (fun k h1 h2 => h k (by omega) (by omega))
    unfold zFetchLoop
    rw [htry]
    simp only [hab, Bool.false_eq_true, if_false, helig, if_true]
    refine ⟨by simp [hnext.1], ?_, hnext.2.2⟩
    have harith : ∀ i : Nat, attempt + 1 + i = attempt + (i + 1) := by omega
    simp [hnext.2.1, List.range_succ_eq_map, List.map_map, Function.comp, harith]

/-- If a response is delivered on an attempt, its status is known; an
attempt whose response (if any) has a failure status hands nothing to the
schema engine. -/
theorem tryBody_validated_nil (p : JsonParse) (schema : Schema) (urlStr : String)
    (o : FetchOutcome) (h : ∀ r, o = .ok r → respOk r.status = false) :
    (tryBody p schema urlStr o).2 = [] := by
  cases o with
  | thrown e => rfl
  | ok r =>
    have hr := h r rfl
    simp [tryBody, hr]

/-- If no attempt of a run ever yields a success-status response, the schema
engine is never invoked. -/
theorem loop_validated_nil (p : JsonParse) (schema : Schema) (call : FetchCall)
    (urlStr : String) (hasSignal : Bool) (cfg : RetryOpts) (env : Nat → AttemptEnv)
    (h : ∀ k r, (env k).outcome = .ok r → respOk r.status = false) :
    ∀ rest attempt,
      (zFetchLoop p schema call urlStr hasSignal cfg env rest attempt).validated = [] := by
  intro rest
  induction rest with
  | zero =>
    intro attempt
    have hvs := tryBody_validated_nil p schema urlStr (env attempt).outcome (h attempt)
    unfold zFetchLoop finalAttempt
    rcases htry : tryBody p schema urlStr (env attempt).outcome with ⟨res, vs⟩
    rw [htry] at hvs
    cases res with
    | ok v => simpa using hvs
    | error e =>
      cases hab : (hasSignal && (env attempt).externalAborted) <;> simpa [hab] using hvs
  | succ r ih =>
    intro attempt
    have hvs := tryBody_validated_nil p schema urlStr (env attempt).outcome (h attempt)
    unfold zFetchLoop
    rcases htry : tryBody p schema urlStr (env attempt).outcome with ⟨res, vs⟩
    rw [htry] at hvs
    cases res with
    | ok v => simpa using hvs
    | error e =>
      cases hab : (hasSignal && (env attempt).externalAborted) with
      | true => simpa [hab] using hvs
      | false =>
        cases helig : retryEligible false e with
        | false => simpa [hab, helig] using hvs
        | true => simp_all [hab, helig, ih (attempt + 1)]

/-- The transport never rejects with this library's own error class:
neither the `fetch` promise nor a body read throws a `ZodFetchError`
(true of any real transport, which does not know the class). -/
def TransportSane (a : AttemptEnv) : Prop :=
  (∀ e, a.outcome = .thrown e → e.zod = none) ∧
  (∀ r e, a.outcome = .ok r → r.textResult = .error e → e.zod = none)

theorem parseSuccessBody_error_sane (p : JsonParse) (r : FetchOk)
    (hsane : ∀ e, r.textResult = .error e → e.zod = none) (e : JsError)
    (h : parseSuccessBody p r = .error e) : e.zod = none := by
  unfold parseSuccessBody at h
  split at h
  · split at h
    · rename_i e0 htr
      cases h
      exact hsane _ htr
    · rename_i text htr
      split at h
      · cases h
      · cases h
        rfl
  · split at h
    · rename_i e0 htr
      cases h
      exact hsane _ htr
    · cases h

/-- `classifyNoRetry` on a plain JS error (not a `ZodFetchError`). -/
theorem classifyNoRetry_none (urlStr : String) (extAborted : Bool) (e : JsError)
    (hz : e.zod = none) :
    classifyNoRetry urlStr extAborted e =
      (if e.name == "AbortError" && !extAborted then
        { message := "Request timed out", url := some urlStr, cause := .timeout }
      else
        { message := e.message, url := some urlStr, cause := .network,
          data := some (.errObj e.name e.message e.isTypeError) }) := by
  unfold classifyNoRetry
  rw [hz]

/-- `classifyNoRetry` rethrows a `ZodFetchError` verbatim. -/
theorem classifyNoRetry_some (urlStr : String) (extAborted : Bool) (e : JsError)
    (z : ZFError) (hz : e.zod = some z) :
    classifyNoRetry urlStr extAborted e = z := by
  unfold classifyNoRetry
  rw [hz]

/-- Any error produced by one attempt is either a non-`ZodFetchError` JS
error or one of the executor's own errors, whose cause is `validation` or
`network`. -/
theorem tryBody_error_sane (p : JsonParse) (schema : Schema) (urlStr : String)
    (a : AttemptEnv) (hs : TransportSane a) (e : JsError) (vs : List Json)
    (htry : tryBody p schema urlStr a.outcome = (.error e, vs)) :
    e.zod = none ∨ ∃ z, e.zod = some z ∧ (z.cause = .validation ∨ z.cause = .network) := by
  unfold tryBody at htry
  split at htry
  · rename_i e0 ho
    simp only [Prod.mk.injEq, Except.error.injEq] at htry
    exact Or.inl (htry.1 ▸ hs.1 e0 ho)
  · rename_i r ho
    split at htry
    · split at htry
      · rename_i e1 hp
        simp only [Prod.mk.injEq, Except.error.injEq] at htry
        exact Or.inl (htry.1 ▸
          parseSuccessBody_error_sane p r (fun e2 htr => hs.2 r e2 ho htr) e1 hp)
      · rename_i data hp
        split at htry
        · rename_i issues hv
          simp only [Prod.mk.injEq, Except.error.injEq] at htry
          rw [← htry.1]
          exact Or.inr ⟨_, rfl, Or.inl rfl⟩
        · rename_i v hv
          simp at htry
    · simp only [Prod.mk.injEq, Except.error.injEq] at htry
      rw [← htry.1]
      exact Or.inr ⟨_, rfl, Or.inr rfl⟩

/-- With a sane transport, every error the attempt loop raises has cause
`network`, `timeout`, `validation` or `abort` — never `unknown`. -/
theorem loop_cause (p : JsonParse) (schema : Schema) (call : FetchCall)
    (urlStr : String) (hasSignal : Bool) (cfg : RetryOpts) (env : Nat → AttemptEnv)
    (h : ∀ k, TransportSane (env k)) :
    ∀ rest attempt e,
      (zFetchLoop p schema call urlStr hasSignal cfg env rest attempt).result = .error e →
      e.cause = .network ∨ e.cause = .timeout ∨ e.cause = .validation ∨ e.cause = .abort := by
  have hfinal : ∀ attempt e0 vs e,
      tryBody p schema urlStr (env attempt).outcome = (.error e0, vs) →
      classifyNoRetry urlStr false e0 = e →
      e.cause = .network ∨ e.cause = .timeout ∨ e.cause = .validation ∨ e.cause = .abort := by
    intro attempt e0 vs e htry hcl
    rcases tryBody_error_sane p schema urlStr (env attempt) (h attempt) e0 vs htry with
      hz | ⟨z, hz, hc⟩
    · rw [classifyNoRetry_none urlStr false e0 hz] at hcl
      split at hcl
      · rw [← hcl]
        exact Or.inr (Or.inl rfl)
      · rw [← hcl]
        exact Or.inl rfl
    · rw [classifyNoRetry_some urlStr false e0 z hz] at hcl
      rcases hc with hc | hc
      · exact Or.inr (Or.inr (Or.inl (hcl ▸ hc)))
      · exact Or.inl (hcl ▸ hc)
  intro rest
  induction rest with
  | zero =>
    intro attempt e hres
    unfold zFetchLoop finalAttempt at hres
    rcases htry : tryBody p schema urlStr (env attempt).outcome with ⟨res, vs⟩
    rw [htry] at hres
    cases res with
    | ok v => simp at hres
    | error e0 =>
      cases hab : (hasSignal && (env attempt).externalAborted) with
      | true =>
        simp only [hab, if_true] at hres
        simp only [Except.error.injEq] at hres
        rw [← hres]
        simp [abortError]
      | false =>
        simp only [hab, Bool.false_eq_true, if_false, Except.error.injEq] at hres
        exact hfinal attempt e0 vs e htry hres
  | succ r ih =>
    intro attempt e hres
    unfold zFetchLoop at hres
    rcases htry : tryBody p schema urlStr (env attempt).outcome with ⟨res, vs⟩
    rw [htry] at hres
    cases res with
    | ok v => simp at hres
    | error e0 =>
      cases hab : (hasSignal && (env attempt).externalAborted) with
      | true =>
        simp only [hab, if_true] at hres
        simp only [Except.error.injEq] at hres
        rw [← hres]
        simp [abortError]
      | false =>
        simp only [hab, Bool.false_eq_true, if_false] at hres
        cases helig : retryEligible false e0 with
        | true =>
          simp only [helig, if_true] at hres
          exact ih (attempt + 1) e hres
        | false =>
          simp only [helig, Bool.false_eq_true, if_false, Except.error.injEq] at hres
          exact hfinal attempt e0 vs e htry hres

/-- A non-eligible failure (with the external signal clear) ends the loop at
once, classified by `classifyNoRetry`, whatever the remaining budget. -/
theorem loop_no_retry (p : JsonParse) (schema : Schema) (call : FetchCall)
    (urlStr : String) (hasSignal : Bool) (cfg : RetryOpts) (env : Nat → AttemptEnv)
    (rest attempt : Nat) (e : JsError) (vs : List Json)
    (htry : tryBody p schema urlStr (env attempt).outcome = (.error e, vs))
    (hab : (hasSignal && (env attempt).externalAborted) = false)
    (helig : retryEligible false e = false) :
    zFetchLoop p schema call urlStr hasSignal cfg env rest attempt =
      ⟨.error (classifyNoRetry urlStr false e), [call], [], vs⟩ := by
  cases rest with
  | zero =>
    unfold zFetchLoop finalAttempt
    rw [htry]
    simp [hab]
  | succ r =>
    unfold zFetchLoop
    rw [htry]
    simp [hab, helig]

/-- `loop_retrying` lifted to `zFetch`. -/
theorem zFetch_retrying (stringify : Json → String) (p : JsonParse) (schema : Schema)
    (opts : ZOptions) (env : Nat → AttemptEnv)
    (h : ∀ k, 1 ≤ k → k ≤ (normalizeRetry opts.retry).attempts + 1 →
      RetryingAttempt p schema (appendSearchParams opts.url opts.searchParams)
        opts.hasSignal (env k)) :
    (zFetch stringify p schema opts env).trace.length =
      (normalizeRetry opts.retry).attempts + 1 ∧
    (zFetch stringify p schema opts env).waits =
      (List.range (normalizeRetry opts.retry).attempts).map
        (fun i => delayUsed (normalizeRetry opts.retry) *
          backoffMult (normalizeRetry opts.retry) (1 + i)) ∧
    ∃ e, (zFetch stringify p schema opts env).result = .error e := by
  have hm := loop_retrying p schema
      { url := appendSearchParams opts.url opts.searchParams, internalController := true,
        timerMs := some (opts.timeout.getD 10000),
        headers := (serializeBody stringify opts.body opts.headers).2,
        body := (serializeBody stringify opts.body opts.headers).1 }
      (appendSearchParams opts.url opts.searchParams) opts.hasSignal
      (normalizeRetry opts.retry) env (normalizeRetry opts.retry).attempts 1
      (fun k h1 h2 => h k h1 (by omega))
  exact hm

/-- The exponential or linear multiplier is always at least one. -/
theorem one_le_backoffMult (c : RetryOpts) (attempt : Nat) : 1 ≤ backoffMult c attempt := by
  unfold backoffMult
  split
  · exact Nat.one_le_pow _ 2 (by norm_num)
  · exact le_refl 1

/-! ### Concrete values used by witnesses and counterexamples -/

/-- A `JSON.stringify` stand-in that is faithful on strings. -/
def jstr : Json → String := fun j =>
  match j with
  | .str s => "\"" ++ s ++ "\""
  | _ => "x"

/-- A fixed network-call record. -/
def cexCall : FetchCall :=
  { url := "u", internalController := true, timerMs := some 10000, headers := [], body := none }

/-- The classified error `zFetch` raises for `err500` against url "u". -/
def err500cls : ZFError :=
  { message := "Request failed with status 500", status := some 500,
    statusText := some "Internal Server Error", url := some "u",
    data := some (.json (.str "")), cause := .network }

/-! ### Claims -/

/-- C6, counterexample: a present string body is not one of the four
already-encoded kinds (blob, form data, URL-encoded form data, byte stream),
yet `serializeBody` passes it through unchanged — it is not JSON-serialized
(under a stringify that quotes strings, the serialization would differ) and
no Content-Type header is set, contradicting the claim. -/
theorem serializeBody_string_body_cex :
    serializeBody jstr (.val (.str "hello")) [] = (some (.str "hello"), []) ∧
    jstr (.str "hello") ≠ "hello" := by
  exact ⟨rfl, by decide⟩

/-- C6 (amended): a present body of object kind (`typeof body === "object"`)
that is not blob/form-data/URL-encoded/byte-stream is JSON-serialized and
Content-Type is set to application/json exactly when it is not already set;
bodies of the four already-encoded kinds — and string bodies, which the
claim overlooked — pass through unchanged with headers untouched, and an
absent or null body yields a null request body. -/
theorem serializeBody_spec (stringify : Json → String) :
    (∀ j hs, serializeBody stringify (.val (.jsonVal j)) hs =
      (some (.str (stringify j)),
        if hasHeader hs "Content-Type" then hs
        else setHeader hs "Content-Type" "application/json")) ∧
    (∀ hs, serializeBody stringify (.val .blob) hs = (some .blob, hs)) ∧
    (∀ hs, serializeBody stringify (.val .formData) hs = (some .formData, hs)) ∧
    (∀ hs, serializeBody stringify (.val .urlSearchParams) hs = (some .urlSearchParams, hs)) ∧
    (∀ hs, serializeBody stringify (.val .readableStream) hs = (some .readableStream, hs)) ∧
    (∀ str hs, serializeBody stringify (.val (.str str)) hs = (some (.str str), hs)) ∧
    (∀ hs, serializeBody stringify .undefined hs = (none, hs)) ∧
    (∀ hs, serializeBody stringify .null hs = (none, hs)) := by
  refine ⟨fun j hs => ?_, fun hs => rfl, fun hs => rfl, fun hs => rfl, fun hs => rfl,
    fun str hs => rfl, fun hs => rfl, fun hs => rfl⟩
  by_cases h : hasHeader hs "Content-Type" = true
  · simp [serializeBody, h]
  · simp only [Bool.not_eq_true] at h
    simp [serializeBody, h]

/-- C7: on a response with a readable body, every decoded fragment is
processed independently — JSON-parsed with fallback to the raw string,
validated, and emitted to the callback exactly when validation succeeds, in
fragment order; rejected fragments are dropped with no error and no fragment
is combined with another, and every fragment reaches the schema engine. -/
theorem stream_fragment_processing (stringify : Json → String) (p : JsonParse)
    (schema : Schema) (opts : ZOptions) (status : Nat) (chunks : List String) :
    (zFetchStream stringify p schema opts (.ok ⟨status, true, chunks⟩)).result =
      .ok (chunks.filterMap (fun c => (schema (parseOrRaw p c)).toOption)) ∧
    (zFetchStream stringify p schema opts (.ok ⟨status, true, chunks⟩)).validated =
      chunks.map (parseOrRaw p) := by
  constructor
  · show Except.ok (streamChunks p schema chunks).1 = _
    rw [streamChunks_fst]
  · show (streamChunks p schema chunks).2 = _
    rw [streamChunks_snd]

/-- C2, counterexample: the streaming variant performs no status check — a
response with HTTP status 500 and a readable body is decoded, its fragment
is handed to the schema layer, and the callback fires, contradicting the
claim that HTTP failure statuses never reach the schema layer in
`zFetch.stream`. -/
theorem stream_status_500_validates_cex :
    (zFetchStream stub pNum numSchema { url := "u" } (.ok ⟨500, true, ["1"]⟩)).validated =
      [.num 1] ∧
    (zFetchStream stub pNum numSchema { url := "u" } (.ok ⟨500, true, ["1"]⟩)).result =
      .ok [.num 1] := by
  exact ⟨rfl, rfl⟩

/-- C2 (amended): in `zFetch`, schema validation is attempted only after an
HTTP exchange whose status is in 200-299 — if no attempt ever yields a
success-status response, the schema engine is never invoked; the streaming
variant, however, performs no status check at all: its behaviour is
completely independent of the response status. -/
theorem http_failure_schema_isolation :
    (∀ (stringify : Json → String) (p : JsonParse) (schema : Schema) (opts : ZOptions)
        (env : Nat → AttemptEnv),
      (∀ k r, (env k).outcome = .ok r → respOk r.status = false) →
      (zFetch stringify p schema opts env).validated = []) ∧
    (∀ (stringify : Json → String) (p : JsonParse) (schema : Schema) (opts : ZOptions)
        (status hb cs),
      zFetchStream stringify p schema opts (.ok ⟨status, hb, cs⟩) =
        zFetchStream stringify p schema opts (.ok ⟨200, hb, cs⟩)) := by
  constructor
  · intro stringify p schema opts env h
    exact loop_validated_nil p schema _ _ opts.hasSignal _ env h _ 1
  · intro stringify p schema opts status hb cs
    rfl

/-- Witness for C2: a run whose only responses are 500s never touches the
schema engine. -/
theorem http_failure_schema_isolation_witness :
    (zFetch stub pNum numSchema { url := "u" } (fun _ => ⟨.ok err500, false⟩)).validated = [] :=
  http_failure_schema_isolation.1 stub pNum numSchema { url := "u" }
    (fun _ => ⟨.ok err500, false⟩)
    (fun _ r hr => by cases hr; rfl)

/-- C1, counterexample: an external signal that is already aborted before the
call never fires the `abort` listener of src/core.ts lines 82-84, so the
internal controller is not cancelled; if the fetch then succeeds with a
valid body, `zFetch` resolves with the value and raises nothing — the claim
that an already-aborted signal makes the executor raise `abort` is false. -/
theorem external_preabort_resolves_cex :
    (zFetch stub pNum numSchema { url := "u", hasSignal := true }
      (fun _ => ⟨.ok (okText "1"), true⟩)).result = .ok (.num 1) := by
  exact rfl

/-- C1 (amended): whenever an attempt of the loop fails (any thrown or
internally raised error) while the external signal is aborted, `zFetch`
raises `abort` — never `timeout`, never `network` — immediately after that
single call, with no retry, for every retry budget; an already-aborted
signal whose request happens to succeed, however, resolves normally. -/
theorem external_abort_wins (p : JsonParse) (schema : Schema) (call : FetchCall)
    (urlStr : String) (cfg : RetryOpts) (env : Nat → AttemptEnv)
    (rest attempt : Nat) (e : JsError) (vs : List Json)
    (hab : (env attempt).externalAborted = true)
    (htry : tryBody p schema urlStr (env attempt).outcome = (.error e, vs)) :
    zFetchLoop p schema call urlStr true cfg env rest attempt =
      ⟨.error (abortError urlStr), [call], [], vs⟩ := by
  cases rest with
  | zero =>
    unfold zFetchLoop finalAttempt
    rw [htry]
    simp [hab]
  | succ r =>
    unfold zFetchLoop
    rw [htry]
    simp [hab]

/-- Witness for C1: a timed-out-looking rejection with the external signal
aborted yields the abort error after one call, even with budget left. -/
theorem external_abort_wins_witness :
    zFetchLoop pNum numSchema cexCall "u" true { attempts := 3 }
      (fun _ => ⟨.thrown ⟨"AbortError", "The user aborted a request.", false, none⟩, true⟩)
      3 1 =
      ⟨.error (abortError "u"), [cexCall], [], []⟩ :=
  external_abort_wins pNum numSchema cexCall "u" { attempts := 3 }
    (fun _ => ⟨.thrown ⟨"AbortError", "The user aborted a request.", false, none⟩, true⟩)
    3 1 ⟨"AbortError", "The user aborted a request.", false, none⟩ [] rfl rfl

/-- C4, counterexample: with `retry = {attempts: 1, delay: 0, backoff:
"linear"}` the claim predicts a suspension of exactly `0 × 1 = 0` ms before
the retry, but `retryConfig.delay || 1000` treats the configured 0 as falsy
and the executor waits 1000 ms. -/
theorem retry_delay_zero_cex :
    (zFetch stub pNum numSchema
      { url := "u", retry := some (.opts { attempts := 1, delay := some 0, backoff := some .linear }) }
      (fun _ => ⟨.ok err500, false⟩)).waits = [1000] ∧
    (1000 : Nat) ≠ 0 * 1 := by
  exact ⟨rfl, by decide⟩

/-- C4 (amended): a bare integer retry value N normalizes to
`{attempts: N, delay: 1000, backoff: linear}`, and the suspension before the
retry that follows attempt k (1-based) is exactly `d × 2^(k−1)` for
exponential backoff and `d × 1` for linear, recomputed fresh from the
current attempt number each time — where `d` is the configured delay except
that an absent or zero delay falls back to 1000 (`delay || 1000`). -/
theorem retry_normalization_and_backoff :
    (∀ n, normalizeRetry (some (.num n)) =
      { attempts := n, delay := some 1000, backoff := some .linear }) ∧
    (∀ (p : JsonParse) (schema : Schema) (call : FetchCall) (urlStr : String)
        (hasSignal : Bool) (cfg : RetryOpts) (env : Nat → AttemptEnv) (rest attempt : Nat),
      (∀ k, attempt ≤ k → k ≤ attempt + rest →
        RetryingAttempt p schema urlStr hasSignal (env k)) →
      (zFetchLoop p schema call urlStr hasSignal cfg env rest attempt).waits =
        (List.range rest).map (fun i => delayUsed cfg * backoffMult cfg (attempt + i))) := by
  refine ⟨fun n => rfl, ?_⟩
  intro p schema call urlStr hasSignal cfg env rest attempt h
  exact (loop_retrying p schema call urlStr hasSignal cfg env rest attempt h).2.1

/-- Witness for C4: two retries with exponential backoff and delay 100 wait
100 ms and then 200 ms. -/
theorem retry_normalization_and_backoff_witness :
    (zFetchLoop pNum numSchema cexCall "u" false
      { attempts := 2, delay := some 100, backoff := some .exponential }
      (fun _ => ⟨.ok err500, false⟩) 2 1).waits =
      (List.range 2).map (fun i =>
        delayUsed { attempts := 2, delay := some 100, backoff := some .exponential } *
          backoffMult { attempts := 2, delay := some 100, backoff := some .exponential } (1 + i)) :=
  retry_normalization_and_backoff.2 pNum numSchema cexCall "u" false
    { attempts := 2, delay := some 100, backoff := some .exponential }
    (fun _ => ⟨.ok err500, false⟩) 2 1
    (fun _ _ _ => ⟨rfl, _, _, rfl, rfl⟩)

/-- C3: for every retry policy with attempts = N and every run in which each
reachable attempt fails retry-eligibly (for example, every response has
status ≥ 500), the loop performs exactly N+1 strictly sequential network
calls — hence at most N+1, and 3 for `attempts: 2` — then terminates by
raising the final classified error, and the total suspended time is at
least N × the effective delay (each wait carries a backoff multiplier ≥ 1). -/
theorem retry_exhaustion_bounds (stringify : Json → String) (p : JsonParse)
    (schema : Schema) (opts : ZOptions) (env : Nat → AttemptEnv)
    (h : ∀ k, 1 ≤ k → k ≤ (normalizeRetry opts.retry).attempts + 1 →
      RetryingAttempt p schema (appendSearchParams opts.url opts.searchParams)
        opts.hasSignal (env k)) :
    (zFetch stringify p schema opts env).trace.length =
      (normalizeRetry opts.retry).attempts + 1 ∧
    (∃ e, (zFetch stringify p schema opts env).result = .error e) ∧
    (normalizeRetry opts.retry).attempts * delayUsed (normalizeRetry opts.retry) ≤
      (zFetch stringify p schema opts env).waits.sum := by
  obtain ⟨hlen, hwaits, hres⟩ := zFetch_retrying stringify p schema opts env h
  refine ⟨hlen, hres, ?_⟩
  have hbound : ∀ x ∈ (zFetch stringify p schema opts env).waits,
      delayUsed (normalizeRetry opts.retry) ≤ x := by
    intro x hx
    rw [hwaits] at hx
    simp only [List.mem_map, List.mem_range] at hx
    obtain ⟨i, hi, hxeq⟩ := hx
    rw [← hxeq]
    calc delayUsed (normalizeRetry opts.retry)
        = delayUsed (normalizeRetry opts.retry) * 1 := by ring
      _ ≤ _ := Nat.mul_le_mul_left _ (one_le_backoffMult _ _)
  have hlen2 : (zFetch stringify p schema opts env).waits.length =
      (normalizeRetry opts.retry).attempts := by
    rw [hwaits]
    simp
  have hsum := length_mul_le_sum (delayUsed (normalizeRetry opts.retry)) _ hbound
  rw [hlen2] at hsum
  exact hsum

/-- Witness for C3: `retry: 2` against a permanently-500 endpoint makes
exactly 3 calls, fails, and waits at least 2 × 1000 ms in total. -/
theorem retry_exhaustion_bounds_witness :
    (zFetch stub pNum numSchema { url := "u", retry := some (.num 2) }
      (fun _ => ⟨.ok err500, false⟩)).trace.length =
      (normalizeRetry (some (.num 2))).attempts + 1 ∧
    (∃ e, (zFetch stub pNum numSchema { url := "u", retry := some (.num 2) }
      (fun _ => ⟨.ok err500, false⟩)).result = .error e) ∧
    (normalizeRetry (some (.num 2))).attempts * delayUsed (normalizeRetry (some (.num 2))) ≤
      (zFetch stub pNum numSchema { url := "u", retry := some (.num 2) }
        (fun _ => ⟨.ok err500, false⟩)).waits.sum :=
  retry_exhaustion_bounds stub pNum numSchema { url := "u", retry := some (.num 2) }
    (fun _ => ⟨.ok err500, false⟩)
    (fun _ _ _ => ⟨rfl, _, _, rfl, rfl⟩)

/-- C5: a 2xx response whose parsed body fails schema validation makes
`zFetch` raise the `validation` classified error carrying the issue list and
the raw parsed data, exactly once, with no retry and no suspension, after
exactly one network call, for every retry configuration. -/
theorem validation_failure_single_call (stringify : Json → String) (p : JsonParse)
    (schema : Schema) (opts : ZOptions) (env : Nat → AttemptEnv) (r : FetchOk)
    (data : Json) (issues : List String)
    (hout : (env 1).outcome = .ok r)
    (hok : respOk r.status = true)
    (hparse : parseSuccessBody p r = .ok data)
    (hval : schema data = .failure issues)
    (hsig : (opts.hasSignal && (env 1).externalAborted) = false) :
    (zFetch stringify p schema opts env).result =
      .error { message := "Validation error",
               url := some (appendSearchParams opts.url opts.searchParams),
               issues := some issues, data := some (.json data), cause := .validation } ∧
    (zFetch stringify p schema opts env).trace.length = 1 ∧
    (zFetch stringify p schema opts env).waits = [] := by
  have htry : tryBody p schema (appendSearchParams opts.url opts.searchParams)
      (env 1).outcome =
      (.error (JsError.ofZod
        { message := "Validation error",
          url := some (appendSearchParams opts.url opts.searchParams),
          issues := some issues, data := some (.json data),
          cause := .validation }), [data]) := by
    rw [hout]
    unfold tryBody
    simp [hok, hparse, hval]
  have heq : zFetch stringify p schema opts env =
      ⟨.error (classifyNoRetry (appendSearchParams opts.url opts.searchParams) false
        (JsError.ofZod
          { message := "Validation error",
            url := some (appendSearchParams opts.url opts.searchParams),
            issues := some issues, data := some (.json data),
            cause := .validation })),
       [{ url := appendSearchParams opts.url opts.searchParams, internalController := true,
          timerMs := some (opts.timeout.getD 10000),
          headers := (serializeBody stringify opts.body opts.headers).2,
          body := (serializeBody stringify opts.body opts.headers).1 }], [], [data]⟩ :=
    loop_no_retry p schema _ _ opts.hasSignal (normalizeRetry opts.retry) env
      (normalizeRetry opts.retry).attempts 1 _ [data] htry hsig rfl
  rw [heq]
  refine ⟨?_, rfl, rfl⟩
  exact congrArg Except.error (classifyNoRetry_some _ false _ _ rfl)

/-- Witness for C5: a 200 response whose numeric body fails a
string-expecting schema yields one call and the validation error. -/
theorem validation_failure_single_call_witness :
    (zFetch stub pNum strSchema { url := "u" }
      (fun _ => ⟨.ok (okText "1"), false⟩)).result =
      .error { message := "Validation error", url := some "u",
               issues := some ["Expected string"], data := some (.json (.num 1)),
               cause := .validation } ∧
    (zFetch stub pNum strSchema { url := "u" }
      (fun _ => ⟨.ok (okText "1"), false⟩)).trace.length = 1 ∧
    (zFetch stub pNum strSchema { url := "u" }
      (fun _ => ⟨.ok (okText "1"), false⟩)).waits = [] :=
  validation_failure_single_call stub pNum strSchema { url := "u" }
    (fun _ => ⟨.ok (okText "1"), false⟩) (okText "1") (.num 1) ["Expected string"]
    rfl rfl rfl rfl rfl

/-- C9: the streaming variant issues exactly one network call against the
supplied URL verbatim — `searchParams` is never appended, and no internal
abort controller and no timeout timer is armed for the call — whereas every
call of `zFetch` goes to the query-extended URL with a fresh internal
controller and a timer of the configured timeout. -/
theorem stream_single_plain_call :
    (∀ (stringify : Json → String) (p : JsonParse) (schema : Schema) (opts : ZOptions)
        (o : StreamOutcome),
      (zFetchStream stringify p schema opts o).trace.map
        (fun c => (c.url, c.internalController, c.timerMs)) = [(opts.url, false, none)]) ∧
    (∀ (stringify : Json → String) (p : JsonParse) (schema : Schema) (opts : ZOptions)
        (env : Nat → AttemptEnv) (c : FetchCall),
      c ∈ (zFetch stringify p schema opts env).trace →
      c.url = appendSearchParams opts.url opts.searchParams ∧
      c.internalController = true ∧ c.timerMs = some (opts.timeout.getD 10000)) := by
  constructor
  · intro stringify p schema opts o
    cases o with
    | thrown e => rfl
    | ok r =>
      rcases r with ⟨st, hb, cs⟩
      cases hb <;> rfl
  · intro stringify p schema opts env c hc
    have hcall := loop_trace_const p schema
      { url := appendSearchParams opts.url opts.searchParams, internalController := true,
        timerMs := some (opts.timeout.getD 10000),
        headers := (serializeBody stringify opts.body opts.headers).2,
        body := (serializeBody stringify opts.body opts.headers).1 }
      (appendSearchParams opts.url opts.searchParams) opts.hasSignal
      (normalizeRetry opts.retry) env (normalizeRetry opts.retry).attempts 1 c hc
    subst hcall
    exact ⟨rfl, rfl, rfl⟩

/-- Witness for C9: in a one-call `zFetch` run, the issued call targets the
assembled URL with an internal controller and the default 10000 ms timer. -/
theorem stream_single_plain_call_witness :
    cexCall.url = appendSearchParams "u" none ∧
    cexCall.internalController = true ∧
    cexCall.timerMs = some 10000 :=
  stream_single_plain_call.2 stub pNum numSchema { url := "u" }
    (fun _ => ⟨.ok (okText "1"), false⟩) cexCall (List.Mem.head _)

/-- C10, counterexample: a 2xx response whose body fails validation throws a
`ZodFetchError` inside the try block; it is neither a timeout-style
cancellation nor a `ZodFetchError` with status ≥ 500, and it is indeed not
retried — but it is re-raised verbatim with kind `validation`, not raised as
kind `network` with the original error attached as `data`, contradicting
the claim. -/
theorem nonretryable_mapping_cex :
    (zFetch stub pNum strSchema { url := "u" }
      (fun _ => ⟨.ok (okText "1"), false⟩)).result =
      .error { message := "Validation error", url := some "u",
               issues := some ["Expected string"], data := some (.json (.num 1)),
               cause := .validation } ∧
    Cause.validation ≠ Cause.network := by
  exact ⟨rfl, by decide⟩

/-- C10 (amended): in the attempt loop a thrown failure is a retry-eligible
network-connectivity failure only when it is a `TypeError` with message
exactly "Failed to fetch"; every other thrown error that is neither a
timeout-style cancellation nor a `ZodFetchError` with status ≥ 500 is never
retried and is raised immediately — as kind `network` with the original
error attached as `data` when it is not a `ZodFetchError`, and rethrown
verbatim when it is a `ZodFetchError` (with status < 500 or none). -/
theorem nonretryable_error_mapping (p : JsonParse) (schema : Schema) (call : FetchCall)
    (urlStr : String) (hasSignal : Bool) (cfg : RetryOpts) (env : Nat → AttemptEnv)
    (rest attempt : Nat) (e : JsError) (vs : List Json)
    (htry : tryBody p schema urlStr (env attempt).outcome = (.error e, vs))
    (hab : (hasSignal && (env attempt).externalAborted) = false)
    (hnoAbort : (e.name == "AbortError") = false)
    (hnoFTF : (e.isTypeError && e.message == "Failed to fetch") = false) :
    (e.zod = none →
      zFetchLoop p schema call urlStr hasSignal cfg env rest attempt =
        ⟨.error { message := e.message, url := some urlStr, cause := .network,
                  data := some (.errObj e.name e.message e.isTypeError) },
         [call], [], vs⟩) ∧
    (∀ z, e.zod = some z →
      (match z.status with | some s => decide (500 ≤ s) | none => false) = false →
      zFetchLoop p schema call urlStr hasSignal cfg env rest attempt =
        ⟨.error z, [call], [], vs⟩) := by
  constructor
  · intro hz
    have helig : retryEligible false e = false := by
      unfold retryEligible
      rw [hz]
      simp [hnoAbort, hnoFTF]
    rw [loop_no_retry p schema call urlStr hasSignal cfg env rest attempt e vs htry hab helig]
    rw [classifyNoRetry_none urlStr false e hz]
    simp [hnoAbort]
  · intro z hz hzs
    have helig : retryEligible false e = false := by
      unfold retryEligible
      rw [hz]
      simp [hnoAbort, hnoFTF, hzs]
    rw [loop_no_retry p schema call urlStr hasSignal cfg env rest attempt e vs htry hab helig]
    rw [classifyNoRetry_some urlStr false e z hz]

/-- Witness for C10: a generic thrown `Error` is not retried even with
budget left and is mapped to kind `network` carrying the error as data. -/
theorem nonretryable_error_mapping_witness :
    zFetchLoop pNum numSchema cexCall "u" false { attempts := 5 }
      (fun _ => ⟨.thrown ⟨"Error", "boom", false, none⟩, false⟩) 5 1 =
      ⟨.error { message := "boom", url := some "u", cause := .network,
                data := some (.errObj "Error" "boom" false) },
       [cexCall], [], []⟩ :=
  (nonretryable_error_mapping pNum numSchema cexCall "u" false { attempts := 5 }
    (fun _ => ⟨.thrown ⟨"Error", "boom", false, none⟩, false⟩) 5 1
    ⟨"Error", "boom", false, none⟩ [] rfl rfl rfl rfl).1 rfl

/-- C8, counterexample: a bodyless response makes the streaming variant
throw the plain `Error("Response body is null")` — a raw error, not a
`ZodFetchError` of kind `unknown` (or any kind), crossing the boundary
unwrapped. -/
theorem stream_missing_body_plain_error_cex :
    raisedUnclassified (zFetchStream stub pNum numSchema { url := "u" }
      (.ok ⟨200, false, []⟩)).result = true ∧
    (zFetchStream stub pNum numSchema { url := "u" } (.ok ⟨200, false, []⟩)).result =
      .error (.plain "Error" "Response body is null") := by
  exact ⟨rfl, rfl⟩

/-- C8 (amended): with a transport that does not itself throw
`ZodFetchError`s, every failure `zFetch` raises is a `ZodFetchError` of kind
`network`, `timeout`, `validation` or `abort` (never `unknown`), and every
failure of `upload` has kind `validation` or `network`; the streaming
variant's missing-response-body failure, however, escapes as a plain
`Error("Response body is null")`, not as a classified error. -/
theorem classified_error_boundary :
    (∀ (stringify : Json → String) (p : JsonParse) (schema : Schema) (opts : ZOptions)
        (env : Nat → AttemptEnv),
      (∀ k, TransportSane (env k)) →
      ∀ e, (zFetch stringify p schema opts env).result = .error e →
        e.cause = .network ∨ e.cause = .timeout ∨ e.cause = .validation ∨ e.cause = .abort) ∧
    (∀ (p : JsonParse) (schema : Schema) (urlStr : String) (o : UploadOutcome) (e : ZFError),
      zFetchUpload p schema urlStr o = .error e →
      e.cause = .validation ∨ e.cause = .network) ∧
    (∀ (stringify : Json → String) (p : JsonParse) (schema : Schema) (opts : ZOptions)
        (status : Nat) (cs : List String),
      (zFetchStream stringify p schema opts (.ok ⟨status, false, cs⟩)).result =
        .error (.plain "Error" "Response body is null")) := by
  refine ⟨?_, ?_, ?_⟩
  · intro stringify p schema opts env h e hres
    exact loop_cause p schema _ _ opts.hasSignal _ env h _ 1 e hres
  · intro p schema urlStr o e hres
    cases o with
    | netError =>
      unfold zFetchUpload at hres
      simp only [Except.error.injEq] at hres
      rw [← hres]
      exact Or.inr rfl
    | load status statusText text =>
      have hunf : zFetchUpload p schema urlStr (.load status statusText text) =
          (if 200 ≤ status && status < 300 then
            match schema (parseOrRaw p text) with
            | .success v => .ok v
            | .failure issues =>
              .error { message := "Validation error", url := some urlStr,
                       issues := some issues, data := some (.json (parseOrRaw p text)),
                       cause := .validation }
          else
            .error { message := "Upload failed with status " ++ toString status,
                     status := some status, statusText := some statusText,
                     url := some urlStr, cause := .network }) := rfl
      rw [hunf] at hres
      split at hres
      · split at hres
        · simp at hres
        · simp only [Except.error.injEq] at hres
          rw [← hres]
          exact Or.inl rfl
      · simp only [Except.error.injEq] at hres
        rw [← hres]
        exact Or.inr rfl
  · intro stringify p schema opts status cs
    rfl

/-- Witness for C8: the error of an all-500 run is classified, with kind
among the four reachable kinds. -/
theorem classified_error_boundary_witness :
    err500cls.cause = .network ∨ err500cls.cause = .timeout ∨
      err500cls.cause = .validation ∨ err500cls.cause = .abort :=
  classified_error_boundary.1 stub pNum numSchema { url := "u" }
    (fun _ => ⟨.ok err500, false⟩)
    (fun _ => ⟨fun e he => (by cases he), fun r e hr hte => by cases hr; cases hte⟩)
    err500cls rfl

end ZodHttp
